import Mathlib

/-!
# PixelArtConverter (src/script.js): a shallow embedding

The class `PixelArtConverter` keeps one field of its own (`currentFile`) and a
handful of DOM elements.  The embedding makes that a record `State`: one field
per DOM property the class reads or writes, the pending asynchronous work
(file reads that were started, requests still in flight) and a log of the
effects the methods perform in order (alerts, console output, DOM writes to
the busy indicator, the request, the scroll).

Every method is a function `State → ... → State`.  The one `async` method,
`processImage`, is cut at its `await`: `processImageStart` is the part that
runs on the click, `processImageResume` the part that runs when the request
settles, and `processImage` is the two run back to back.
-/

namespace PixelArtConverter

/-! ## Data -/

/-- The part of a browser `File` that the class looks at (`type`, `size`);
`name` tells files apart. -/
structure File where
  name : String
  type : String
  size : Nat
  deriving DecidableEq

/-- A JavaScript value, by what `processImage` can observe of it: whether it
is truthy (`if (result.success)`, `result.detail || ...`) and what string it
converts to (`new Error(v)`, `img.src = v`).  A number is given by whether it
is zero and by its string form; an object or array by its string form. -/
inductive JsVal where
  | undefined
  | null
  | bool (b : Bool)
  | number (isZero : Bool) (text : String)
  | string (s : String)
  | object (text : String)
  deriving DecidableEq

/-- JavaScript truthiness. -/
def JsVal.truthy : JsVal → Bool
  | .undefined => false
  | .null => false
  | .bool b => b
  | .number isZero _ => !isZero
  | .string s => s != ""
  | .object _ => true

/-- JavaScript string conversion. -/
def JsVal.toStr : JsVal → String
  | .undefined => "undefined"
  | .null => "null"
  | .bool true => "true"
  | .bool false => "false"
  | .number _ text => text
  | .string s => s
  | .object text => text

/-- The four properties `processImage` and `showResult` read off `result`.
A property the body lacks reads as `undefined`. -/
structure Result where
  success : JsVal
  detail : JsVal
  output_url : JsVal
  filename : JsVal
  deriving DecidableEq

/-- The value of `await response.json()`: JSON `null`, on which reading
`.success` throws a `TypeError` (with the message the engine gives it), or any
other value, seen through the four properties. -/
inductive Parsed where
  | null (typeErrorMessage : String)
  | value (result : Result)
  deriving DecidableEq

/-- How the request of `processImage` settles: `fetch` rejects; or it resolves
with a response of some HTTP status whose body `response.json()` rejects; or
it resolves and the body parses. -/
inductive Outcome where
  | networkFailure (message : String)
  | malformedBody (status : Nat) (message : String)
  | parsed (status : Nat) (body : Parsed)
  deriving DecidableEq

/-- The `FormData` that `processImage` builds. -/
structure FormData where
  file : File
  pixel_size : String
  method : String
  num_colors : String
  dither : String
  deriving DecidableEq

/-- What the methods do to the world, in the order they do it. -/
inductive Effect where
  | alert (message : String)
  | consoleError (label : String) (message : String)
  | preventDefault
  | readAsDataURL (file : File)
  | showLoading
  | hideLoading
  | fetch (url : String) (method : String) (body : FormData)
  | scrollIntoView (behavior : String)
  deriving DecidableEq

/-- The object state.  A `...Display` field is the element's `style.display`
as it takes effect; the stylesheet, which is not part of the script, decides
it until the script first writes it. -/
structure State where
  currentFile : Option File
  uploadAreaDisplay : String
  uploadAreaDragOver : Bool
  controlsSectionDisplay : String
  previewSectionDisplay : String
  loadingDisplay : String
  fileInputValue : String
  pixelSize : String
  method : String
  numColors : String
  dither : Bool
  pixelSizeValue : String
  numColorsValue : String
  originalPreviewSrc : String
  processedPreviewSrc : String
  downloadLinkHref : String
  downloadLinkDownload : String
  pendingReads : List File
  inFlight : Nat
  effects : List Effect
  deriving DecidableEq

/-- An element is shown unless its display is `none`. -/
def visible (display : String) : Bool := display != "none"

/-- JavaScript `String.prototype.startsWith`. -/
def startsWith (s p : String) : Bool := s.data.take p.data.length == p.data

/-! ## Methods -/

/-- The call `alert(message)`. -/
def alert (s : State) (message : String) : State :=
  { s with effects := s.effects ++ [Effect.alert message] }

/-- Method `showControls`. -/
def showControls (s : State) : State :=
  { s with controlsSectionDisplay := "block", uploadAreaDisplay := "none" }

/-- Method `showOriginalPreview`: starts the read; `onload` runs later. -/
def showOriginalPreview (s : State) (file : File) : State :=
  { s with
    pendingReads := s.pendingReads ++ [file],
    effects := s.effects ++ [Effect.readAsDataURL file] }

/-- The `reader.onload` callback of `showOriginalPreview`, for the `i`-th read
still pending. -/
def readerOnload (s : State) (i : Nat) (dataUrl : String) : State :=
  if i < s.pendingReads.length then
    { s with pendingReads := s.pendingReads.eraseIdx i, originalPreviewSrc := dataUrl }
  else s

/-- Method `handleFile`. -/
def handleFile (s : State) (file : File) : State :=
  if !startsWith file.type "image/" then
    alert s "请选择图片文件！"
  else if file.size > 10 * 1024 * 1024 then
    alert s "文件大小不能超过10MB！"
  else
    showOriginalPreview (showControls { s with currentFile := some file }) file

/-- Method `handleFileSelect`, on `e.target.files`. -/
def handleFileSelect (s : State) (files : List File) : State :=
  match files with
  | [] => s
  | file :: _ => handleFile s file

/-- Method `handleDragOver`. -/
def handleDragOver (s : State) : State :=
  { s with effects := s.effects ++ [Effect.preventDefault], uploadAreaDragOver := true }

/-- Method `handleDragLeave`. -/
def handleDragLeave (s : State) : State :=
  { s with effects := s.effects ++ [Effect.preventDefault], uploadAreaDragOver := false }

/-- Method `handleDrop`, on `e.dataTransfer.files`. -/
def handleDrop (s : State) (files : List File) : State :=
  let s1 : State :=
    { s with effects := s.effects ++ [Effect.preventDefault], uploadAreaDragOver := false }
  match files with
  | [] => s1
  | file :: _ => handleFile s1 file

/-- Method `showLoading`. -/
def showLoading (s : State) : State :=
  { s with loadingDisplay := "flex", effects := s.effects ++ [Effect.showLoading] }

/-- Method `hideLoading`. -/
def hideLoading (s : State) : State :=
  { s with loadingDisplay := "none", effects := s.effects ++ [Effect.hideLoading] }

/-- Method `showResult`. -/
def showResult (s : State) (result : Result) : State :=
  { s with
    previewSectionDisplay := "block",
    processedPreviewSrc := result.output_url.toStr,
    downloadLinkHref := result.output_url.toStr,
    downloadLinkDownload := result.filename.toStr,
    effects := s.effects ++ [Effect.scrollIntoView "smooth"] }

/-- The `formData` of `processImage`: the file and the four controls, each as
the string `FormData.append` makes of it. -/
def buildFormData (s : State) (file : File) : FormData :=
  { file := file,
    pixel_size := s.pixelSize,
    method := s.method,
    num_colors := s.numColors,
    dither := if s.dither then "true" else "false" }

/-- The `try` block of `processImage` up to and including the `fetch` call. -/
def processImageRequest (s : State) (file : File) : State :=
  let s1 := showLoading s
  { s1 with
    effects := s1.effects ++ [Effect.fetch "/api/pixelate" "POST" (buildFormData s1 file)],
    inFlight := s1.inFlight + 1 }

/-- Method `processImage` from the click to the first `await`. -/
def processImageStart (s : State) : State :=
  match s.currentFile with
  | none => alert s "请先选择图片！"
  | some file => processImageRequest s file

/-- The rest of the `try` block once the request has settled: the state it
leaves and, when it throws, the message of the error thrown. -/
def processImageTry (s : State) : Outcome → State × Option String
  | .networkFailure message => (s, some message)
  | .malformedBody _ message => (s, some message)
  | .parsed _ (.null typeErrorMessage) => (s, some typeErrorMessage)
  | .parsed _ (.value result) =>
    if result.success.truthy then
      (showResult s result, none)
    else
      (s, some (if result.detail.truthy then result.detail else JsVal.string "处理失败").toStr)

/-- The `catch` block of `processImage`. -/
def processImageCatch (s : State) (message : String) : State :=
  alert { s with effects := s.effects ++ [Effect.consoleError "处理失败:" message] }
    ("处理失败: " ++ message)

/-- Method `processImage` from the settling of the request to its end: the
rest of `try`, then `catch` if it threw, then `finally`. -/
def processImageResume (s : State) (o : Outcome) : State :=
  let s2 :=
    match processImageTry s o with
    | (s1, none) => s1
    | (s1, some message) => processImageCatch s1 message
  { hideLoading s2 with inFlight := s2.inFlight - 1 }

/-- Method `processImage` run through, the request settling with `o` before
anything else happens. -/
def processImage (s : State) (o : Outcome) : State :=
  match s.currentFile with
  | none => alert s "请先选择图片！"
  | some file => processImageResume (processImageRequest s file) o

/-- Method `reset`. -/
def reset (s : State) : State :=
  { s with
    currentFile := none,
    controlsSectionDisplay := "none",
    previewSectionDisplay := "none",
    uploadAreaDisplay := "block",
    fileInputValue := "",
    pixelSize := "8",
    method := "average",
    numColors := "16",
    dither := false,
    pixelSizeValue := "8",
    numColorsValue := "16",
    originalPreviewSrc := "",
    processedPreviewSrc := "" }

/-! ## Events -/

/-- What can happen to the page: the events `initEventListeners` listens for,
the two asynchronous completions, and the user changing a control that has no
listener.  `change` carries the value the browser has put in the file input;
`dragEnter` has no listener. -/
inductive Event where
  | change (value : String) (files : List File)
  | dragEnter
  | dragOver
  | dragLeave
  | drop (files : List File)
  | pixelSizeInput (value : String)
  | numColorsInput (value : String)
  | methodSelect (value : String)
  | ditherToggle (checked : Bool)
  | processClick
  | settle (o : Outcome)
  | resetClick
  | readerLoad (i : Nat) (dataUrl : String)
  deriving DecidableEq

/-- One event handled to completion.  A request can only settle while one is
in flight. -/
def step (s : State) : Event → State
  | .change value files => handleFileSelect { s with fileInputValue := value } files
  | .dragEnter => s
  | .dragOver => handleDragOver s
  | .dragLeave => handleDragLeave s
  | .drop files => handleDrop s files
  | .pixelSizeInput value => { s with pixelSize := value, pixelSizeValue := value }
  | .numColorsInput value => { s with numColors := value, numColorsValue := value }
  | .methodSelect value => { s with method := value }
  | .ditherToggle checked => { s with dither := checked }
  | .processClick => processImageStart s
  | .settle o => if s.inFlight = 0 then s else processImageResume s o
  | .resetClick => reset s
  | .readerLoad i dataUrl => readerOnload s i dataUrl

/-- A sequence of events, handled one after the other. -/
def run (s : State) (events : List Event) : State := events.foldl step s

/-- No `reset` in the sequence happens while a request is in flight. -/
def resetsWhenSettled (s : State) : List Event → Bool
  | [] => true
  | e :: es =>
    (match e with
      | .resetClick => s.inFlight == 0
      | _ => true) && resetsWhenSettled (step s e) es

/-- The upload area and the controls section follow `currentFile`: without a
file only the upload area is shown, with a file only the controls. -/
def AffordanceMatches (s : State) : Prop :=
  (s.currentFile = none ∧ visible s.uploadAreaDisplay = true ∧
      visible s.controlsSectionDisplay = false) ∨
    (s.currentFile ≠ none ∧ visible s.uploadAreaDisplay = false ∧
      visible s.controlsSectionDisplay = true)

/-- With no request in flight the busy indicator is hidden, and without a
file the controls and the result section are hidden and no request is in
flight. -/
def FileBacksSections (s : State) : Prop :=
  (s.inFlight = 0 → visible s.loadingDisplay = false) ∧
    (s.currentFile = none →
      visible s.controlsSectionDisplay = false ∧ visible s.previewSectionDisplay = false ∧
        s.inFlight = 0)

/-! ## Sample inputs -/

/-- The page as loaded: no file, only the upload area shown, controls at
their defaults. -/
def idleState : State :=
  { currentFile := none,
    uploadAreaDisplay := "block",
    uploadAreaDragOver := false,
    controlsSectionDisplay := "none",
    previewSectionDisplay := "none",
    loadingDisplay := "none",
    fileInputValue := "",
    pixelSize := "8",
    method := "average",
    numColors := "16",
    dither := false,
    pixelSizeValue := "8",
    numColorsValue := "16",
    originalPreviewSrc := "",
    processedPreviewSrc := "",
    downloadLinkHref := "",
    downloadLinkDownload := "",
    pendingReads := [],
    inFlight := 0,
    effects := [] }

/-- A 2 MB PNG. -/
def samplePng : File := { name := "cat.png", type := "image/png", size := 2 * 1024 * 1024 }

/-- A PNG of exactly 10 MiB. -/
def limitPng : File := { name := "big.png", type := "image/png", size := 10485760 }

/-- A 12 MB JPEG. -/
def largeJpeg : File := { name := "huge.jpg", type := "image/jpeg", size := 12 * 1024 * 1024 }

/-- A text file. -/
def textFile : File := { name := "notes.txt", type := "text/plain", size := 120 }

/-- The successful response of the service. -/
def successResult : Result :=
  { success := JsVal.bool true,
    detail := JsVal.undefined,
    output_url := JsVal.string "/out/1.png",
    filename := JsVal.string "1.png" }

/-- A failure response whose `detail` is the empty string. -/
def emptyDetailResult : Result :=
  { success := JsVal.bool false,
    detail := JsVal.string "",
    output_url := JsVal.undefined,
    filename := JsVal.undefined }

/-- A failure response with a reason. -/
def decodeErrorResult : Result :=
  { success := JsVal.bool false,
    detail := JsVal.string "decode error",
    output_url := JsVal.undefined,
    filename := JsVal.undefined }

/-- A file is dropped, processing starts, the user resets, the request
succeeds. -/
def resetInFlightEvents : List Event :=
  [Event.drop [samplePng], Event.processClick, Event.resetClick,
   Event.settle (Outcome.parsed 200 (Parsed.value successResult))]

/-- A file is dropped and processed with success, the user resets, picks
another file and starts processing it. -/
def settledResetEvents : List Event :=
  [Event.drop [samplePng], Event.processClick,
   Event.settle (Outcome.parsed 200 (Parsed.value successResult)), Event.resetClick,
   Event.change "big.png" [limitPng], Event.processClick]

/-- The session after `samplePng` was accepted. -/
def selectedState : State := handleFile idleState samplePng

/-- The session after `samplePng` was processed with success. -/
def resultState : State := processImage selectedState (Outcome.parsed 200 (Parsed.value successResult))

/-! ## Validation (`handleFile`) -/

/-- C1: a file whose type does not start with `image/`, or whose size exceeds
10 * 1024 * 1024 bytes, is rejected by `handleFile`: exactly one alert is
raised (the type message if the type is wrong, the size message otherwise) and
`currentFile`, the display of the upload area, of the controls section and of
the result section, both preview sources, the download link and the pending
reads are what they were. -/
theorem handleFile_rejects_invalid (s : State) (file : File)
    (h : startsWith file.type "image/" = false ∨ file.size > 10 * 1024 * 1024) :
    (handleFile s file).effects =
        s.effects ++ [Effect.alert
          (if startsWith file.type "image/" then "文件大小不能超过10MB！" else "请选择图片文件！")] ∧
      (handleFile s file).currentFile = s.currentFile ∧
      (handleFile s file).uploadAreaDisplay = s.uploadAreaDisplay ∧
      (handleFile s file).controlsSectionDisplay = s.controlsSectionDisplay ∧
      (handleFile s file).previewSectionDisplay = s.previewSectionDisplay ∧
      (handleFile s file).originalPreviewSrc = s.originalPreviewSrc ∧
      (handleFile s file).processedPreviewSrc = s.processedPreviewSrc ∧
      (handleFile s file).downloadLinkHref = s.downloadLinkHref ∧
      (handleFile s file).downloadLinkDownload = s.downloadLinkDownload ∧
      (handleFile s file).pendingReads = s.pendingReads := by
  by_cases ht : startsWith file.type "image/" = true
  · have hsz : file.size > 10 * 1024 * 1024 := by
      rcases h with h | h
      · rw [ht] at h
        exact absurd h (by decide)
      · exact h
    simp [handleFile, ht, hsz, alert]
  · have hf : startsWith file.type "image/" = false := by
      cases hb : startsWith file.type "image/"
      · rfl
      · exact absurd hb ht
    simp [handleFile, hf, alert]

/-- Witness for C1: a 12 MB JPEG offered while `samplePng` is active. -/
theorem handleFile_rejects_invalid_witness :
    (handleFile selectedState largeJpeg).effects =
        selectedState.effects ++ [Effect.alert
          (if startsWith largeJpeg.type "image/" then "文件大小不能超过10MB！" else "请选择图片文件！")] ∧
      (handleFile selectedState largeJpeg).currentFile = selectedState.currentFile ∧
      (handleFile selectedState largeJpeg).uploadAreaDisplay = selectedState.uploadAreaDisplay ∧
      (handleFile selectedState largeJpeg).controlsSectionDisplay =
        selectedState.controlsSectionDisplay ∧
      (handleFile selectedState largeJpeg).previewSectionDisplay =
        selectedState.previewSectionDisplay ∧
      (handleFile selectedState largeJpeg).originalPreviewSrc = selectedState.originalPreviewSrc ∧
      (handleFile selectedState largeJpeg).processedPreviewSrc =
        selectedState.processedPreviewSrc ∧
      (handleFile selectedState largeJpeg).downloadLinkHref = selectedState.downloadLinkHref ∧
      (handleFile selectedState largeJpeg).downloadLinkDownload =
        selectedState.downloadLinkDownload ∧
      (handleFile selectedState largeJpeg).pendingReads = selectedState.pendingReads :=
  handleFile_rejects_invalid selectedState largeJpeg (Or.inr (by decide))

/-- C2: a file whose type starts with `image/` and whose size is at most
10 * 1024 * 1024 bytes is accepted by `handleFile`: it becomes `currentFile`,
the controls section is shown, the upload area is hidden, and a read of that
file is started (and nothing else is done: no alert). -/
theorem handleFile_accepts_valid (s : State) (file : File)
    (ht : startsWith file.type "image/" = true) (hsz : file.size ≤ 10 * 1024 * 1024) :
    (handleFile s file).currentFile = some file ∧
      visible (handleFile s file).controlsSectionDisplay = true ∧
      visible (handleFile s file).uploadAreaDisplay = false ∧
      (handleFile s file).effects = s.effects ++ [Effect.readAsDataURL file] ∧
      (handleFile s file).pendingReads = s.pendingReads ++ [file] := by
  have hsz2 : ¬ file.size > 10 * 1024 * 1024 := Nat.not_lt.mpr hsz
  simp [handleFile, ht, hsz2, showOriginalPreview, showControls]
  decide

/-- Witness for C2: a PNG of exactly 10485760 bytes. -/
theorem handleFile_accepts_valid_witness :
    (handleFile idleState limitPng).currentFile = some limitPng ∧
      visible (handleFile idleState limitPng).controlsSectionDisplay = true ∧
      visible (handleFile idleState limitPng).uploadAreaDisplay = false ∧
      (handleFile idleState limitPng).effects =
        idleState.effects ++ [Effect.readAsDataURL limitPng] ∧
      (handleFile idleState limitPng).pendingReads = idleState.pendingReads ++ [limitPng] :=
  handleFile_accepts_valid idleState limitPng (by decide) (by decide)

/-- C9, as stated, fails: in the Result state `resultState` a valid new file
is accepted, yet the result section is still shown and the processed preview
and the download link still point at the earlier output. -/
theorem handleFile_in_result_keeps_old_result :
    visible resultState.previewSectionDisplay = true ∧
      resultState.processedPreviewSrc = "/out/1.png" ∧
      (handleFile resultState limitPng).currentFile = some limitPng ∧
      visible (handleFile resultState limitPng).previewSectionDisplay = true ∧
      (handleFile resultState limitPng).processedPreviewSrc = "/out/1.png" ∧
      (handleFile resultState limitPng).downloadLinkHref = "/out/1.png" ∧
      (handleFile resultState limitPng).downloadLinkDownload = "1.png" := by
  decide

/-- C9, amended: `handleFile` with a valid file makes it `currentFile`, shows
the controls and hides the upload area, and leaves the result section's
display, the processed preview and the download link exactly as they were. -/
theorem handleFile_valid_leaves_result (s : State) (file : File)
    (ht : startsWith file.type "image/" = true) (hsz : file.size ≤ 10 * 1024 * 1024) :
    (handleFile s file).currentFile = some file ∧
      visible (handleFile s file).controlsSectionDisplay = true ∧
      visible (handleFile s file).uploadAreaDisplay = false ∧
      (handleFile s file).previewSectionDisplay = s.previewSectionDisplay ∧
      (handleFile s file).processedPreviewSrc = s.processedPreviewSrc ∧
      (handleFile s file).downloadLinkHref = s.downloadLinkHref ∧
      (handleFile s file).downloadLinkDownload = s.downloadLinkDownload := by
  have hsz2 : ¬ file.size > 10 * 1024 * 1024 := Nat.not_lt.mpr hsz
  simp [handleFile, ht, hsz2, showOriginalPreview, showControls]
  decide

/-- Witness for C9 amended: a new file offered in `resultState`. -/
theorem handleFile_valid_leaves_result_witness :
    (handleFile resultState limitPng).currentFile = some limitPng ∧
      visible (handleFile resultState limitPng).controlsSectionDisplay = true ∧
      visible (handleFile resultState limitPng).uploadAreaDisplay = false ∧
      (handleFile resultState limitPng).previewSectionDisplay =
        resultState.previewSectionDisplay ∧
      (handleFile resultState limitPng).processedPreviewSrc = resultState.processedPreviewSrc ∧
      (handleFile resultState limitPng).downloadLinkHref = resultState.downloadLinkHref ∧
      (handleFile resultState limitPng).downloadLinkDownload =
        resultState.downloadLinkDownload :=
  handleFile_valid_leaves_result resultState limitPng (by decide) (by decide)

/-! ## Reset -/

/-- C7: `reset` run twice gives the state `reset` run once gives, and that
state has no current file, the controls and result sections hidden, the
upload area shown, the file input cleared, the four controls at 8, average,
16 and unchecked, the labels at 8 and 16, and both preview sources empty. -/
theorem reset_idempotent_defaults (s : State) :
    reset (reset s) = reset s ∧
      (reset s).currentFile = none ∧
      visible (reset s).controlsSectionDisplay = false ∧
      visible (reset s).previewSectionDisplay = false ∧
      visible (reset s).uploadAreaDisplay = true ∧
      (reset s).fileInputValue = "" ∧
      (reset s).pixelSize = "8" ∧
      (reset s).method = "average" ∧
      (reset s).numColors = "16" ∧
      (reset s).dither = false ∧
      (reset s).pixelSizeValue = "8" ∧
      (reset s).numColorsValue = "16" ∧
      (reset s).originalPreviewSrc = "" ∧
      (reset s).processedPreviewSrc = "" := by
  refine ⟨rfl, rfl, ?_, ?_, ?_, rfl, rfl, rfl, rfl, rfl, rfl, rfl, rfl, rfl⟩ <;>
    simp [reset, visible]

/-! ## Remote invocation (`processImage`) -/

/-- C3, as stated, fails: with `samplePng` active and the result section
hidden, a response of status 500 whose body is the success object makes
`processImage` show the result section and fill the processed preview and the
download link; no alert is raised. -/
theorem processImage_status500_success_shows_result :
    selectedState.currentFile = some samplePng ∧
      visible selectedState.previewSectionDisplay = false ∧
      visible (processImage selectedState
        (Outcome.parsed 500 (Parsed.value successResult))).previewSectionDisplay = true ∧
      (processImage selectedState
        (Outcome.parsed 500 (Parsed.value successResult))).processedPreviewSrc = "/out/1.png" ∧
      (processImage selectedState
        (Outcome.parsed 500 (Parsed.value successResult))).downloadLinkDownload = "1.png" ∧
      (processImage selectedState (Outcome.parsed 500 (Parsed.value successResult))).effects =
        selectedState.effects ++
          [Effect.showLoading,
           Effect.fetch "/api/pixelate" "POST" (buildFormData selectedState samplePng),
           Effect.scrollIntoView "smooth",
           Effect.hideLoading] := by
  decide

/-- C3, amended: with a current file, when the request ends in a network
failure, in a body that is not valid JSON (whatever the status), or in a
non-2xx response whose body is `null` or has a falsy `success`, `processImage`
logs and alerts the error message and leaves the result section's display,
the processed preview and the download link as they were.  The error message
is: the message of the rejection for a network failure and for a body that is
not valid JSON; the message of the `TypeError` for a `null` body; and for a
body with a falsy `success` the string form of `detail` when `detail` is
truthy, the generic message otherwise. -/
theorem processImage_failure_leaves_result (s : State) (file : File) (o : Outcome)
    (hf : s.currentFile = some file)
    (ho : (∃ m, o = Outcome.networkFailure m) ∨ (∃ st m, o = Outcome.malformedBody st m) ∨
      (∃ st body, o = Outcome.parsed st body ∧ ¬ (200 ≤ st ∧ st < 300) ∧
        ∀ r, body = Parsed.value r → r.success.truthy = false)) :
    (∃ message,
      (processImage s o).effects =
          s.effects ++
            [Effect.showLoading,
             Effect.fetch "/api/pixelate" "POST" (buildFormData s file),
             Effect.consoleError "处理失败:" message,
             Effect.alert ("处理失败: " ++ message),
             Effect.hideLoading] ∧
        (∀ m, o = Outcome.networkFailure m → message = m) ∧
        (∀ st m, o = Outcome.malformedBody st m → message = m) ∧
        (∀ st m, o = Outcome.parsed st (Parsed.null m) → message = m) ∧
        (∀ st r, o = Outcome.parsed st (Parsed.value r) →
          message = if r.detail.truthy then r.detail.toStr else "处理失败")) ∧
      (processImage s o).previewSectionDisplay = s.previewSectionDisplay ∧
      (processImage s o).processedPreviewSrc = s.processedPreviewSrc ∧
      (processImage s o).downloadLinkHref = s.downloadLinkHref ∧
      (processImage s o).downloadLinkDownload = s.downloadLinkDownload := by
  rcases ho with ⟨m, rfl⟩ | ⟨st, m, rfl⟩ | ⟨st, body, rfl, -, hb⟩
  · refine ⟨⟨m, ?_, ?_, ?_, ?_, ?_⟩, ?_, ?_, ?_, ?_⟩ <;>
      simp [processImage, hf, processImageResume, processImageTry, processImageCatch,
        processImageRequest, showLoading, hideLoading, alert, buildFormData]
  · refine ⟨⟨m, ?_, ?_, ?_, ?_, ?_⟩, ?_, ?_, ?_, ?_⟩ <;>
      simp [processImage, hf, processImageResume, processImageTry, processImageCatch,
        processImageRequest, showLoading, hideLoading, alert, buildFormData]
  · cases body with
    | null msg =>
      refine ⟨⟨msg, ?_, ?_, ?_, ?_, ?_⟩, ?_, ?_, ?_, ?_⟩ <;>
        simp [processImage, hf, processImageResume, processImageTry, processImageCatch,
          processImageRequest, showLoading, hideLoading, alert, buildFormData]
    | value r =>
      have hr : r.success.truthy = false := hb r rfl
      refine ⟨⟨if r.detail.truthy then r.detail.toStr else "处理失败",
        ?_, ?_, ?_, ?_, ?_⟩, ?_, ?_, ?_, ?_⟩
      · by_cases hd : r.detail.truthy = true
        · simp [processImage, hf, processImageResume, processImageTry, processImageCatch,
            processImageRequest, showLoading, hideLoading, alert, buildFormData, hr, hd]
        · simp [processImage, hf, processImageResume, processImageTry, processImageCatch,
            processImageRequest, showLoading, hideLoading, alert, buildFormData, hr, hd,
            JsVal.toStr]
      · intro m hm
        cases hm
      · intro st2 m hm
        cases hm
      · intro st2 m hm
        cases hm
      · intro st2 r2 hm
        cases hm
        rfl
      all_goals
        simp [processImage, hf, processImageResume, processImageTry, processImageCatch,
          processImageRequest, showLoading, hideLoading, alert, buildFormData, hr]

/-- Witness for C3 amended: the service answers status 500 with
`decodeErrorResult` while `samplePng` is active. -/
theorem processImage_failure_leaves_result_witness :
    (∃ message,
      (processImage selectedState
        (Outcome.parsed 500 (Parsed.value decodeErrorResult))).effects =
          selectedState.effects ++
            [Effect.showLoading,
             Effect.fetch "/api/pixelate" "POST" (buildFormData selectedState samplePng),
             Effect.consoleError "处理失败:" message,
             Effect.alert ("处理失败: " ++ message),
             Effect.hideLoading] ∧
        (∀ m, Outcome.parsed 500 (Parsed.value decodeErrorResult) = Outcome.networkFailure m →
          message = m) ∧
        (∀ st m, Outcome.parsed 500 (Parsed.value decodeErrorResult) =
          Outcome.malformedBody st m → message = m) ∧
        (∀ st m, Outcome.parsed 500 (Parsed.value decodeErrorResult) =
          Outcome.parsed st (Parsed.null m) → message = m) ∧
        (∀ st r, Outcome.parsed 500 (Parsed.value decodeErrorResult) =
          Outcome.parsed st (Parsed.value r) →
          message = if r.detail.truthy then r.detail.toStr else "处理失败")) ∧
      (processImage selectedState
        (Outcome.parsed 500 (Parsed.value decodeErrorResult))).previewSectionDisplay =
        selectedState.previewSectionDisplay ∧
      (processImage selectedState
        (Outcome.parsed 500 (Parsed.value decodeErrorResult))).processedPreviewSrc =
        selectedState.processedPreviewSrc ∧
      (processImage selectedState
        (Outcome.parsed 500 (Parsed.value decodeErrorResult))).downloadLinkHref =
        selectedState.downloadLinkHref ∧
      (processImage selectedState
        (Outcome.parsed 500 (Parsed.value decodeErrorResult))).downloadLinkDownload =
        selectedState.downloadLinkDownload :=
  processImage_failure_leaves_result selectedState samplePng
    (Outcome.parsed 500 (Parsed.value decodeErrorResult)) (by decide)
    (Or.inr (Or.inr ⟨500, Parsed.value decodeErrorResult, rfl, by decide,
      fun r hr => by cases hr; decide⟩))

/-- C4, as stated, fails: the response `emptyDetailResult` has `success` false
and a `detail` that is present (the empty string), yet the error raised
carries the generic message, not the detail, and the alert shows the generic
message. -/
theorem processImage_empty_detail_generic_message :
    emptyDetailResult.success.truthy = false ∧
      emptyDetailResult.detail = JsVal.string "" ∧
      (processImageTry (processImageStart selectedState)
        (Outcome.parsed 200 (Parsed.value emptyDetailResult))).2 = some "处理失败" ∧
      "处理失败" ≠ emptyDetailResult.detail.toStr ∧
      (processImage selectedState (Outcome.parsed 200 (Parsed.value emptyDetailResult))).effects =
        selectedState.effects ++
          [Effect.showLoading,
           Effect.fetch "/api/pixelate" "POST" (buildFormData selectedState samplePng),
           Effect.consoleError "处理失败:" "处理失败",
           Effect.alert "处理失败: 处理失败",
           Effect.hideLoading] := by
  decide

/-- C4, amended: with a current file and a parsed, non-null response whose
`success` is falsy, `processImage` raises an error whose message is the
string form of `detail` when `detail` is truthy and the generic message
otherwise, logs it, alerts it after the prefix, and leaves the result
section's display, the processed preview, the download link, `currentFile`
and the display of the controls and of the upload area as they were; the
busy indicator ends hidden. -/
theorem processImage_unsuccessful_reports_detail (s : State) (file : File) (status : Nat)
    (r : Result) (hf : s.currentFile = some file) (hs : r.success.truthy = false) :
    (processImage s (Outcome.parsed status (Parsed.value r))).effects =
        s.effects ++
          [Effect.showLoading,
           Effect.fetch "/api/pixelate" "POST" (buildFormData s file),
           Effect.consoleError "处理失败:"
             (if r.detail.truthy then r.detail.toStr else "处理失败"),
           Effect.alert ("处理失败: " ++ (if r.detail.truthy then r.detail.toStr else "处理失败")),
           Effect.hideLoading] ∧
      (processImage s (Outcome.parsed status (Parsed.value r))).previewSectionDisplay =
        s.previewSectionDisplay ∧
      (processImage s (Outcome.parsed status (Parsed.value r))).processedPreviewSrc =
        s.processedPreviewSrc ∧
      (processImage s (Outcome.parsed status (Parsed.value r))).downloadLinkHref =
        s.downloadLinkHref ∧
      (processImage s (Outcome.parsed status (Parsed.value r))).downloadLinkDownload =
        s.downloadLinkDownload ∧
      (processImage s (Outcome.parsed status (Parsed.value r))).currentFile = s.currentFile ∧
      (processImage s (Outcome.parsed status (Parsed.value r))).controlsSectionDisplay =
        s.controlsSectionDisplay ∧
      (processImage s (Outcome.parsed status (Parsed.value r))).uploadAreaDisplay =
        s.uploadAreaDisplay ∧
      visible (processImage s (Outcome.parsed status (Parsed.value r))).loadingDisplay = false := by
  refine ⟨?_, ?_, ?_, ?_, ?_, ?_, ?_, ?_, ?_⟩
  · by_cases hd : r.detail.truthy = true
    · simp [processImage, hf, processImageResume, processImageTry, processImageCatch,
        processImageRequest, showLoading, hideLoading, alert, buildFormData, hs, hd]
    · simp [processImage, hf, processImageResume, processImageTry, processImageCatch,
        processImageRequest, showLoading, hideLoading, alert, buildFormData, hs, hd, JsVal.toStr]
  all_goals
    simp [processImage, hf, processImageResume, processImageTry, processImageCatch,
      processImageRequest, showLoading, hideLoading, alert, buildFormData, hs, visible]

/-- Witness for C4 amended: the service answers `decodeErrorResult`. -/
theorem processImage_unsuccessful_reports_detail_witness :
    (processImage selectedState (Outcome.parsed 200 (Parsed.value decodeErrorResult))).effects =
        selectedState.effects ++
          [Effect.showLoading,
           Effect.fetch "/api/pixelate" "POST" (buildFormData selectedState samplePng),
           Effect.consoleError "处理失败:"
             (if decodeErrorResult.detail.truthy then decodeErrorResult.detail.toStr
              else "处理失败"),
           Effect.alert ("处理失败: " ++
             (if decodeErrorResult.detail.truthy then decodeErrorResult.detail.toStr
              else "处理失败")),
           Effect.hideLoading] ∧
      (processImage selectedState
        (Outcome.parsed 200 (Parsed.value decodeErrorResult))).previewSectionDisplay =
        selectedState.previewSectionDisplay ∧
      (processImage selectedState
        (Outcome.parsed 200 (Parsed.value decodeErrorResult))).processedPreviewSrc =
        selectedState.processedPreviewSrc ∧
      (processImage selectedState
        (Outcome.parsed 200 (Parsed.value decodeErrorResult))).downloadLinkHref =
        selectedState.downloadLinkHref ∧
      (processImage selectedState
        (Outcome.parsed 200 (Parsed.value decodeErrorResult))).downloadLinkDownload =
        selectedState.downloadLinkDownload ∧
      (processImage selectedState
        (Outcome.parsed 200 (Parsed.value decodeErrorResult))).currentFile =
        selectedState.currentFile ∧
      (processImage selectedState
        (Outcome.parsed 200 (Parsed.value decodeErrorResult))).controlsSectionDisplay =
        selectedState.controlsSectionDisplay ∧
      (processImage selectedState
        (Outcome.parsed 200 (Parsed.value decodeErrorResult))).uploadAreaDisplay =
        selectedState.uploadAreaDisplay ∧
      visible (processImage selectedState
        (Outcome.parsed 200 (Parsed.value decodeErrorResult))).loadingDisplay = false :=
  processImage_unsuccessful_reports_detail selectedState samplePng 200 decodeErrorResult
    (by decide) (by decide)

/-- C5: with a current file and a parsed response whose `success` is true
(any truthy value), whose `output_url` is the string `u` and whose `filename`
is the string `f`, `processImage` shows the result section, sets the
processed preview source and the download link target to `u` and the
download name to `f`, raises no alert (its effects are: show the busy
indicator, the request, the scroll, hide the busy indicator), and leaves
`currentFile` and the four controls as they were. -/
theorem processImage_success_shows_result (s : State) (file : File) (status : Nat)
    (r : Result) (u f : String) (hf : s.currentFile = some file)
    (hs : r.success.truthy = true) (hu : r.output_url = JsVal.string u)
    (hn : r.filename = JsVal.string f) :
    visible (processImage s (Outcome.parsed status (Parsed.value r))).previewSectionDisplay =
        true ∧
      (processImage s (Outcome.parsed status (Parsed.value r))).processedPreviewSrc = u ∧
      (processImage s (Outcome.parsed status (Parsed.value r))).downloadLinkHref = u ∧
      (processImage s (Outcome.parsed status (Parsed.value r))).downloadLinkDownload = f ∧
      (processImage s (Outcome.parsed status (Parsed.value r))).effects =
        s.effects ++
          [Effect.showLoading,
           Effect.fetch "/api/pixelate" "POST" (buildFormData s file),
           Effect.scrollIntoView "smooth",
           Effect.hideLoading] ∧
      (processImage s (Outcome.parsed status (Parsed.value r))).currentFile = s.currentFile ∧
      (processImage s (Outcome.parsed status (Parsed.value r))).pixelSize = s.pixelSize ∧
      (processImage s (Outcome.parsed status (Parsed.value r))).method = s.method ∧
      (processImage s (Outcome.parsed status (Parsed.value r))).numColors = s.numColors ∧
      (processImage s (Outcome.parsed status (Parsed.value r))).dither = s.dither := by
  refine ⟨?_, ?_, ?_, ?_, ?_, ?_, ?_, ?_, ?_, ?_⟩ <;>
    simp [processImage, hf, processImageResume, processImageTry, processImageRequest,
      showResult, showLoading, hideLoading, buildFormData, hs, hu, hn, visible, JsVal.toStr]

/-- Witness for C5: the service answers `successResult` for `samplePng`. -/
theorem processImage_success_shows_result_witness :
    visible (processImage selectedState
        (Outcome.parsed 200 (Parsed.value successResult))).previewSectionDisplay = true ∧
      (processImage selectedState
        (Outcome.parsed 200 (Parsed.value successResult))).processedPreviewSrc = "/out/1.png" ∧
      (processImage selectedState
        (Outcome.parsed 200 (Parsed.value successResult))).downloadLinkHref = "/out/1.png" ∧
      (processImage selectedState
        (Outcome.parsed 200 (Parsed.value successResult))).downloadLinkDownload = "1.png" ∧
      (processImage selectedState (Outcome.parsed 200 (Parsed.value successResult))).effects =
        selectedState.effects ++
          [Effect.showLoading,
           Effect.fetch "/api/pixelate" "POST" (buildFormData selectedState samplePng),
           Effect.scrollIntoView "smooth",
           Effect.hideLoading] ∧
      (processImage selectedState
        (Outcome.parsed 200 (Parsed.value successResult))).currentFile =
        selectedState.currentFile ∧
      (processImage selectedState (Outcome.parsed 200 (Parsed.value successResult))).pixelSize =
        selectedState.pixelSize ∧
      (processImage selectedState (Outcome.parsed 200 (Parsed.value successResult))).method =
        selectedState.method ∧
      (processImage selectedState (Outcome.parsed 200 (Parsed.value successResult))).numColors =
        selectedState.numColors ∧
      (processImage selectedState (Outcome.parsed 200 (Parsed.value successResult))).dither =
        selectedState.dither :=
  processImage_success_shows_result selectedState samplePng 200 successResult
    "/out/1.png" "1.png" (by decide) (by decide) (by decide) (by decide)

/-- What the part of `processImage` after the `await` adds to the log before
its `finally`: nothing but the scroll, or the console line and the alert. -/
theorem processImageResume_effects (s : State) (o : Outcome) :
    ∃ mid,
      (processImageResume s o).effects = s.effects ++ mid ++ [Effect.hideLoading] ∧
        Effect.hideLoading ∉ mid ∧ Effect.showLoading ∉ mid := by
  cases o with
  | networkFailure m =>
    exact ⟨[Effect.consoleError "处理失败:" m, Effect.alert ("处理失败: " ++ m)],
      by simp [processImageResume, processImageTry, processImageCatch, hideLoading, alert],
      by simp, by simp⟩
  | malformedBody st m =>
    exact ⟨[Effect.consoleError "处理失败:" m, Effect.alert ("处理失败: " ++ m)],
      by simp [processImageResume, processImageTry, processImageCatch, hideLoading, alert],
      by simp, by simp⟩
  | parsed st body =>
    cases body with
    | null m =>
      exact ⟨[Effect.consoleError "处理失败:" m, Effect.alert ("处理失败: " ++ m)],
        by simp [processImageResume, processImageTry, processImageCatch, hideLoading, alert],
        by simp, by simp⟩
    | value r =>
      by_cases hs : r.success.truthy = true
      · exact ⟨[Effect.scrollIntoView "smooth"],
          by simp [processImageResume, processImageTry, showResult, hideLoading, hs],
          by simp, by simp⟩
      · exact ⟨[Effect.consoleError "处理失败:"
            (if r.detail.truthy then r.detail else JsVal.string "处理失败").toStr,
          Effect.alert ("处理失败: " ++
            (if r.detail.truthy then r.detail else JsVal.string "处理失败").toStr)],
          by simp [processImageResume, processImageTry, processImageCatch, hideLoading, alert, hs],
          by simp, by simp⟩

/-- C6: with a current file, whatever the outcome of the request (success,
application failure, network or parse failure): when `processImage` suspends
at the request the busy indicator is shown and `showLoading` was logged just
before the request; when it finishes the busy indicator is hidden; and
between the request and the end `hideLoading` runs exactly once, as the last
step, with no `showLoading` in between. -/
theorem processImage_busy_indicator (s : State) (file : File) (o : Outcome)
    (hf : s.currentFile = some file) :
    visible (processImageStart s).loadingDisplay = true ∧
      (processImageStart s).effects =
        s.effects ++
          [Effect.showLoading, Effect.fetch "/api/pixelate" "POST" (buildFormData s file)] ∧
      processImage s o = processImageResume (processImageStart s) o ∧
      visible (processImage s o).loadingDisplay = false ∧
      ∃ mid,
        (processImage s o).effects =
            (processImageStart s).effects ++ mid ++ [Effect.hideLoading] ∧
          Effect.hideLoading ∉ mid ∧ Effect.showLoading ∉ mid := by
  have hp : processImage s o = processImageResume (processImageStart s) o := by
    simp [processImage, processImageStart, hf]
  refine ⟨?_, ?_, hp, ?_, ?_⟩
  · simp [processImageStart, hf, processImageRequest, showLoading, visible]
  · simp [processImageStart, hf, processImageRequest, showLoading, buildFormData]
  · simp [hp, processImageResume, hideLoading, visible]
  · rw [hp]
    exact processImageResume_effects (processImageStart s) o

/-- Witness for C6: `samplePng` is active and the network is down. -/
theorem processImage_busy_indicator_witness :
    visible (processImageStart selectedState).loadingDisplay = true ∧
      (processImageStart selectedState).effects =
        selectedState.effects ++
          [Effect.showLoading,
           Effect.fetch "/api/pixelate" "POST" (buildFormData selectedState samplePng)] ∧
      processImage selectedState (Outcome.networkFailure "Failed to fetch") =
        processImageResume (processImageStart selectedState)
          (Outcome.networkFailure "Failed to fetch") ∧
      visible (processImage selectedState
        (Outcome.networkFailure "Failed to fetch")).loadingDisplay = false ∧
      ∃ mid,
        (processImage selectedState (Outcome.networkFailure "Failed to fetch")).effects =
            (processImageStart selectedState).effects ++ mid ++ [Effect.hideLoading] ∧
          Effect.hideLoading ∉ mid ∧ Effect.showLoading ∉ mid :=
  processImage_busy_indicator selectedState samplePng
    (Outcome.networkFailure "Failed to fetch") (by decide)

/-! ## Invariants over event sequences -/

/-- The fields `handleFile` never writes. -/
theorem handleFile_frame (s : State) (file : File) :
    (handleFile s file).previewSectionDisplay = s.previewSectionDisplay ∧
      (handleFile s file).loadingDisplay = s.loadingDisplay ∧
      (handleFile s file).inFlight = s.inFlight := by
  unfold handleFile
  split
  · simp [alert]
  · split <;> simp [alert, showOriginalPreview, showControls]

/-- Either `handleFile` leaves the file and the two sections alone, or it
installs the file, shows the controls and hides the upload area. -/
theorem handleFile_sections (s : State) (file : File) :
    ((handleFile s file).currentFile = s.currentFile ∧
        (handleFile s file).uploadAreaDisplay = s.uploadAreaDisplay ∧
        (handleFile s file).controlsSectionDisplay = s.controlsSectionDisplay) ∨
      ((handleFile s file).currentFile = some file ∧
        (handleFile s file).uploadAreaDisplay = "none" ∧
        (handleFile s file).controlsSectionDisplay = "block") := by
  unfold handleFile
  split
  · left
    simp [alert]
  · split
    · left
      simp [alert]
    · right
      simp [showOriginalPreview, showControls]

/-- The fields the start of `processImage` never writes. -/
theorem processImageStart_frame (s : State) :
    (processImageStart s).currentFile = s.currentFile ∧
      (processImageStart s).uploadAreaDisplay = s.uploadAreaDisplay ∧
      (processImageStart s).controlsSectionDisplay = s.controlsSectionDisplay ∧
      (processImageStart s).previewSectionDisplay = s.previewSectionDisplay := by
  unfold processImageStart
  split <;> simp [alert, processImageRequest, showLoading]

/-- The fields the end of `processImage` never writes. -/
theorem processImageResume_frame (s : State) (o : Outcome) :
    (processImageResume s o).currentFile = s.currentFile ∧
      (processImageResume s o).uploadAreaDisplay = s.uploadAreaDisplay ∧
      (processImageResume s o).controlsSectionDisplay = s.controlsSectionDisplay ∧
      (processImageResume s o).loadingDisplay = "none" ∧
      (processImageResume s o).inFlight = s.inFlight - 1 := by
  cases o with
  | networkFailure m =>
    simp [processImageResume, processImageTry, processImageCatch, hideLoading, alert]
  | malformedBody st m =>
    simp [processImageResume, processImageTry, processImageCatch, hideLoading, alert]
  | parsed st body =>
    cases body with
    | null m =>
      simp [processImageResume, processImageTry, processImageCatch, hideLoading, alert]
    | value r =>
      by_cases hs : r.success.truthy = true
      · simp [processImageResume, processImageTry, showResult, hideLoading, hs]
      · simp [processImageResume, processImageTry, processImageCatch, hideLoading, alert, hs]

/-- Every event keeps the upload area and the controls in step with
`currentFile`. -/
theorem step_affordance (s : State) (e : Event) (h : AffordanceMatches s) :
    AffordanceMatches (step s e) := by
  have hshown : ∀ (s1 : State) (file : File), AffordanceMatches s1 →
      AffordanceMatches (handleFile s1 file) := by
    intro s1 file h1
    rcases handleFile_sections s1 file with ⟨hc, hu, hk⟩ | ⟨hc, hu, hk⟩
    · unfold AffordanceMatches at h1 ⊢
      rw [hc, hu, hk]
      exact h1
    · right
      rw [hc, hu, hk]
      exact ⟨by simp, by decide, by decide⟩
  cases e with
  | change value files =>
    cases files with
    | nil => exact h
    | cons file rest => exact hshown _ file h
  | dragEnter => exact h
  | dragOver => exact h
  | dragLeave => exact h
  | drop files =>
    cases files with
    | nil => exact h
    | cons file rest => exact hshown _ file h
  | pixelSizeInput value => exact h
  | numColorsInput value => exact h
  | methodSelect value => exact h
  | ditherToggle checked => exact h
  | processClick =>
    obtain ⟨hc, hu, hk, -⟩ := processImageStart_frame s
    unfold AffordanceMatches at h ⊢
    simp only [step]
    rw [hc, hu, hk]
    exact h
  | settle o =>
    simp only [step]
    split
    · exact h
    · obtain ⟨hc, hu, hk, -, -⟩ := processImageResume_frame s o
      unfold AffordanceMatches at h ⊢
      rw [hc, hu, hk]
      exact h
  | resetClick =>
    left
    exact ⟨rfl, by simp [step, reset, visible], by simp [step, reset, visible]⟩
  | readerLoad i dataUrl =>
    simp only [step, readerOnload]
    split
    · exact h
    · exact h

/-- C10: from a state with no file in which the upload area is shown and the
controls are hidden, after any sequence of events (files chosen or dropped,
valid or not; drag enter, over, leave; the start of `processImage` and the
settling of its request with any outcome; reset; the other events of the
page) exactly one of the upload area and the controls is shown: the upload
area exactly when there is no current file, the controls exactly when there
is one. -/
theorem upload_xor_controls_invariant (s0 : State) (events : List Event)
    (h0 : s0.currentFile = none) (hu : visible s0.uploadAreaDisplay = true)
    (hc : visible s0.controlsSectionDisplay = false) :
    (visible (run s0 events).uploadAreaDisplay !=
        visible (run s0 events).controlsSectionDisplay) = true ∧
      (visible (run s0 events).uploadAreaDisplay = true ↔ (run s0 events).currentFile = none) ∧
      (visible (run s0 events).controlsSectionDisplay = true ↔
        (run s0 events).currentFile ≠ none) := by
  have hrun : ∀ (evs : List Event) (s : State), AffordanceMatches s →
      AffordanceMatches (run s evs) := by
    intro evs
    induction evs with
    | nil => intro s hs; exact hs
    | cons e rest ih => intro s hs; exact ih (step s e) (step_affordance s e hs)
  rcases hrun events s0 (Or.inl ⟨h0, hu, hc⟩) with ⟨h1, h2, h3⟩ | ⟨h1, h2, h3⟩
  · simp [h1, h2, h3]
  · simp [h1, h2, h3]

/-- Witness for C10: the page as loaded, then a file dropped, processed and
reset while the request is in flight. -/
theorem upload_xor_controls_invariant_witness :
    (visible (run idleState resetInFlightEvents).uploadAreaDisplay !=
        visible (run idleState resetInFlightEvents).controlsSectionDisplay) = true ∧
      (visible (run idleState resetInFlightEvents).uploadAreaDisplay = true ↔
        (run idleState resetInFlightEvents).currentFile = none) ∧
      (visible (run idleState resetInFlightEvents).controlsSectionDisplay = true ↔
        (run idleState resetInFlightEvents).currentFile ≠ none) :=
  upload_xor_controls_invariant idleState resetInFlightEvents (by decide) (by decide)
    (by decide)

/-- C8, as stated, fails: from the page as loaded, a file is dropped and
processing starts; a reset while the request is in flight leaves the busy
indicator shown with no current file, and when the request then succeeds the
result section is shown with no current file. -/
theorem reset_in_flight_shows_sections_without_file :
    idleState.currentFile = none ∧
      (run idleState (resetInFlightEvents.take 3)).currentFile = none ∧
      visible (run idleState (resetInFlightEvents.take 3)).loadingDisplay = true ∧
      (run idleState resetInFlightEvents).currentFile = none ∧
      visible (run idleState resetInFlightEvents).previewSectionDisplay = true := by
  decide

/-- Every event other than a reset during a request keeps the sections
backed by a file. -/
theorem step_fileBacks (s : State) (e : Event) (h : FileBacksSections s)
    (hr : e = Event.resetClick → s.inFlight = 0) : FileBacksSections (step s e) := by
  have hfile : ∀ (s1 : State) (file : File), FileBacksSections s1 →
      FileBacksSections (handleFile s1 file) := by
    intro s1 file h1
    obtain ⟨hp, hl, hi⟩ := handleFile_frame s1 file
    unfold FileBacksSections at h1 ⊢
    rw [hp, hl, hi]
    refine ⟨h1.1, ?_⟩
    rcases handleFile_sections s1 file with ⟨hc, -, hk⟩ | ⟨hc, -, -⟩
    · rw [hc, hk]
      exact h1.2
    · intro hn
      rw [hc] at hn
      exact absurd hn (by simp)
  cases e with
  | change value files =>
    cases files with
    | nil => exact h
    | cons file rest => exact hfile _ file h
  | dragEnter => exact h
  | dragOver => exact h
  | dragLeave => exact h
  | drop files =>
    cases files with
    | nil => exact h
    | cons file rest => exact hfile _ file h
  | pixelSizeInput value => exact h
  | numColorsInput value => exact h
  | methodSelect value => exact h
  | ditherToggle checked => exact h
  | processClick =>
    simp only [step, processImageStart]
    cases hcf : s.currentFile with
    | none =>
      unfold FileBacksSections at h ⊢
      simpa [alert] using h
    | some file =>
      unfold FileBacksSections
      simp [processImageRequest, showLoading, hcf]
  | settle o =>
    simp only [step]
    split
    · exact h
    · rename_i hpos
      obtain ⟨hc, -, hk, hl, hi⟩ := processImageResume_frame s o
      unfold FileBacksSections at h ⊢
      rw [hc, hk, hl, hi]
      refine ⟨fun _ => by decide, ?_⟩
      intro hn
      exact absurd (h.2 hn).2.2 hpos
  | resetClick =>
    have hz : s.inFlight = 0 := hr rfl
    unfold FileBacksSections at h ⊢
    refine ⟨fun _ => ?_, fun _ => ⟨?_, ?_, ?_⟩⟩
    · simpa [step, reset] using h.1 hz
    · simp [step, reset, visible]
    · simp [step, reset, visible]
    · simpa [step, reset] using hz
  | readerLoad i dataUrl =>
    simp only [step, readerOnload]
    split
    · exact h
    · exact h

/-- C8, amended: from a state with the controls, the result section and the
busy indicator hidden and no request in flight, after any sequence of events
in which no reset happens while a request is in flight, `currentFile` is not
null whenever the controls section, the busy indicator or the result section
is shown. -/
theorem currentFile_present_when_shown (s0 : State) (events : List Event)
    (hc : visible s0.controlsSectionDisplay = false)
    (hp : visible s0.previewSectionDisplay = false)
    (hl : visible s0.loadingDisplay = false) (hi : s0.inFlight = 0)
    (hq : resetsWhenSettled s0 events = true)
    (hv : visible (run s0 events).controlsSectionDisplay = true ∨
      visible (run s0 events).loadingDisplay = true ∨
      visible (run s0 events).previewSectionDisplay = true) :
    (run s0 events).currentFile ≠ none := by
  have hrun : ∀ (evs : List Event) (s : State), FileBacksSections s →
      resetsWhenSettled s evs = true → FileBacksSections (run s evs) := by
    intro evs
    induction evs with
    | nil => intro s hs _; exact hs
    | cons e rest ih =>
      intro s hs hqs
      simp only [resetsWhenSettled, Bool.and_eq_true] at hqs
      refine ih (step s e) (step_fileBacks s e hs ?_) hqs.2
      intro he
      subst he
      simpa using hqs.1
  have hinv := hrun events s0 ⟨fun _ => hl, fun _ => ⟨hc, hp, hi⟩⟩ hq
  intro hn
  obtain ⟨h1, h2, h3⟩ := hinv.2 hn
  have h4 := hinv.1 h3
  rcases hv with hv | hv | hv
  · rw [h1] at hv
    exact absurd hv (by decide)
  · rw [h4] at hv
    exact absurd hv (by decide)
  · rw [h2] at hv
    exact absurd hv (by decide)

/-- Witness for C8 amended: after `settledResetEvents` the busy indicator is
shown and there is a current file. -/
theorem currentFile_present_when_shown_witness :
    (run idleState settledResetEvents).currentFile ≠ none :=
  currentFile_present_when_shown idleState settledResetEvents (by decide) (by decide)
    (by decide) (by decide) (by decide) (Or.inr (Or.inl (by decide)))

end PixelArtConverter
